import Mathlib

set_option autoImplicit false

/-!
A shallow embedding of the `hyp3_sdk` client library
(`src/hyp3_sdk/hyp3.py` and `src/hyp3_sdk/util.py`).

Remote I/O is modelled by passing the remote service as an explicit function
argument; Python exceptions are modelled with `Except` over an inductive
exception type; Python dictionaries are modelled as insertion-ordered
association lists.  The `Job`/`Batch` data model lives in `hyp3_sdk/jobs.py`,
which is not part of the sources here; those definitions are modelled from the
specification and are marked as such in their doc comments.
-/

namespace Hyp3Sdk

/-- Modelled from the spec: the job status enum of `hyp3_sdk.jobs`
(section 3: PENDING, RUNNING, SUCCEEDED, FAILED; terminal states are
SUCCEEDED and FAILED). -/
inductive JobStatus where
  | PENDING
  | RUNNING
  | SUCCEEDED
  | FAILED
deriving DecidableEq

/-- A Python value as it appears in the job dictionaries and records handled
by the client: None, a bool, a string, or an integer. -/
inductive PyVal where
  | nonePy
  | bool (b : Bool)
  | str (s : String)
  | int (n : Int)
deriving DecidableEq

/-- A raw job record as returned by the remote API: a JSON object, modelled
as an insertion-ordered association list. -/
abbrev Record := List (String × PyVal)

/-- Modelled from the spec: the `Job` value object of `hyp3_sdk.jobs`
(section 3: identifier, status, optional name, submission time, job type,
job parameters, optional result metadata). -/
structure Job where
  job_id : String
  status : JobStatus
  name : Option String
  request_time : Option PyVal
  job_type : Option PyVal
  job_parameters : Option PyVal
  files : Option PyVal
  logs : Option PyVal
deriving DecidableEq

/-- Modelled from the spec: `Batch` is an ordered collection of Jobs
(section 3), no deduplication. -/
structure Batch where
  jobs : List Job
deriving DecidableEq

/-- Modelled from the spec: `Job.complete` is true iff the status is terminal
(SUCCEEDED or FAILED), section 4.1 `is_complete`. -/
def Job.complete (j : Job) : Bool :=
  match j.status with
  | .SUCCEEDED => true
  | .FAILED => true
  | _ => false

/-- Modelled from the spec: `Batch.complete` is true iff every contained job
is complete; vacuously true for an empty batch (section 4.2). -/
def Batch.complete (b : Batch) : Bool :=
  b.jobs.all Job.complete

/-- Modelled from the spec: `Batch._count_statuses` tallies statuses over the
current snapshot (section 4.2 `status_counts`). -/
def Batch.count_statuses (b : Batch) (s : JobStatus) : Nat :=
  (b.jobs.filter (fun j => j.status == s)).length

/-- The Python exceptions the embedded code can raise.  `hyp3Error` is the
`HyP3Error` class of `hyp3_sdk.exceptions` carrying its message; `timeoutJob`
and `timeoutBatch` embed the two raise sites
`raise HyP3Error(f\x7bTimeout occurred while waiting for ...\x7d)`, carrying
the interpolated object (the last-known snapshot) instead of its rendered
message; `parseError` is the parse failure of `Job.from_dict` (spec section
7, `ParseError`); the others are the built-in Python exceptions. -/
inductive PyExc where
  | hyp3Error (msg : String)
  | parseError (msg : String)
  | valueError (msg : String)
  | typeError (msg : String)
  | notImplementedError (msg : String)
  | timeoutJob (last : Job)
  | timeoutBatch (last : Batch)
deriving DecidableEq

/-- Recognize a `status_code` string as a status enum member. -/
def statusOfString (s : String) : Option JobStatus :=
  if s = "PENDING" then some JobStatus.PENDING
  else if s = "RUNNING" then some JobStatus.RUNNING
  else if s = "SUCCEEDED" then some JobStatus.SUCCEEDED
  else if s = "FAILED" then some JobStatus.FAILED
  else none

/-- Modelled from the spec: `Job.from_dict` of `hyp3_sdk.jobs` (section 4.1
`from_record`): parses a raw job record; fails with a parse error if the
required fields (id, status_code) are absent or the status code is not a
recognized enum value; the remaining fields are optional. -/
def Job.from_dict (d : Record) : Except PyExc Job :=
  match List.lookup ("job_id") d, List.lookup ("status_code") d with
  | some (PyVal.str id), some (PyVal.str sc) =>
    match statusOfString sc with
    | some st =>
      Except.ok
        { job_id := id
          status := st
          name := match List.lookup ("name") d with
                  | some (PyVal.str n) => some n
                  | _ => none
          request_time := List.lookup ("request_time") d
          job_type := List.lookup ("job_type") d
          job_parameters := List.lookup ("job_parameters") d
          files := List.lookup ("files") d
          logs := List.lookup ("logs") d }
    | none => Except.error (PyExc.parseError ("Unrecognized status code: " ++ sc))
  | _, _ => Except.error (PyExc.parseError ("Required field missing from job record"))

/-- The remote API as seen through `self.session.get(urljoin(self.url,
f/jobs/...))` in `HyP3.get_job_by_id`: either an HTTP 2xx response with a JSON
job record (so `raise_for_status` does not raise), an HTTP error status (so
`raise_for_status` raises `HTTPError`), or a lower-level `RequestException`
(for example a connection error). -/
inductive GetJobResponse where
  | success (record : Record)
  | httpError (status : Nat)
  | requestException
deriving DecidableEq

/-- `HyP3.get_job_by_id` (src/hyp3_sdk/hyp3.py lines 74 to 88): GET the job
record for `job_id`; any `RequestException` (including the `HTTPError` raised
by `raise_for_status`) is caught and re-raised as
`HyP3Error(fUnable to get job by ID ...)`.  `Job.from_dict` runs outside the
`try`, so its parse errors propagate unchanged. -/
def get_job_by_id (service : String → GetJobResponse) (job_id : String) :
    Except PyExc Job :=
  match service job_id with
  | .success r => Job.from_dict r
  | .httpError _ => Except.error (PyExc.hyp3Error ("Unable to get job by ID " ++ job_id))
  | .requestException => Except.error (PyExc.hyp3Error ("Unable to get job by ID " ++ job_id))

/-- The argument of the single-dispatch methods `HyP3.watch` / `HyP3.refresh`:
a `Job`, a `Batch`, or a value of any other runtime type (carrying the string
`type(x)` would render to), which falls through to the unregistered base
implementation. -/
inductive Dispatchable where
  | job (j : Job)
  | batch (b : Batch)
  | other (typeName : String)
deriving DecidableEq

/-- `HyP3._refresh_job` (lines 159 to 161): re-fetch the job by its id. -/
def _refresh_job (service : String → GetJobResponse) (job : Job) :
    Except PyExc Job :=
  get_job_by_id service job.job_id

/-- The loop body of `HyP3._refresh_batch` (lines 152 to 157): refresh each
job in order, appending to a fresh list; the first failure aborts the loop
and propagates. -/
def refresh_jobs_list (service : String → GetJobResponse) :
    List Job → Except PyExc (List Job)
  | [] => Except.ok []
  | j :: rest =>
    match _refresh_job service j with
    | .error e => Except.error e
    | .ok j2 =>
      match refresh_jobs_list service rest with
      | .error e => Except.error e
      | .ok rest2 => Except.ok (j2 :: rest2)

/-- `HyP3._refresh_batch` (lines 152 to 157): refresh every contained job
independently and re-wrap into a new `Batch` preserving order. -/
def _refresh_batch (service : String → GetJobResponse) (b : Batch) :
    Except PyExc Batch :=
  match refresh_jobs_list service b.jobs with
  | .error e => Except.error e
  | .ok js => Except.ok (Batch.mk js)

/-- `HyP3.refresh` (lines 140 to 161): single dispatch on the runtime type;
the base implementation raises
`NotImplementedError(fCannot refresh ... type object)`. -/
def refresh (service : String → GetJobResponse) :
    Dispatchable → Except PyExc Dispatchable
  | .job j =>
    match _refresh_job service j with
    | .error e => Except.error e
    | .ok j2 => Except.ok (Dispatchable.job j2)
  | .batch b =>
    match _refresh_batch service b with
    | .error e => Except.error e
    | .ok b2 => Except.ok (Dispatchable.batch b2)
  | .other t =>
    Except.error (PyExc.notImplementedError ("Cannot refresh " ++ t ++ " type object"))

/-- `math.ceil(timeout / interval)` for natural-number seconds with
`interval > 0`, as computed at the top of `_watch_batch` / `_watch_job`
(`iterations_until_timeout`). -/
def ceil_div (timeout interval : Nat) : Nat :=
  (timeout + interval - 1) / interval

/-- Observable outcome of one watch call: the returned (or raised) value, the
number of `self.refresh` calls the loop made, and the number of
`time.sleep(interval)` calls it made. -/
structure WatchRun (α : Type) where
  outcome : Except PyExc α
  refresh_calls : Nat
  sleeps : Nat

/-- The `for ii in range(iterations_until_timeout)` loop of `HyP3._watch_job`
(lines 126 to 138), with `fuel` iterations left and `i` the current iteration
index: refresh the job (`service i` is the remote state seen by iteration
`i`), return the refreshed snapshot if it is complete, otherwise sleep and
continue; when the range is exhausted raise
`HyP3Error(fTimeout occurred while waiting for ...)` carrying the current
snapshot.  The tqdm progress-bar statements are rendering-only I/O and have
no further observable effect, so they are not modelled. -/
def watch_job_loop (service : Nat → String → GetJobResponse) (job : Job)
    (i fuel : Nat) : WatchRun Job :=
  match fuel with
  | 0 => ⟨Except.error (PyExc.timeoutJob job), 0, 0⟩
  | fuel2 + 1 =>
    match _refresh_job (service i) job with
    | .error e => ⟨Except.error e, 1, 0⟩
    | .ok job2 =>
      if job2.complete then ⟨Except.ok job2, 1, 0⟩
      else
        let r := watch_job_loop service job2 (i + 1) fuel2
        ⟨r.outcome, r.refresh_calls + 1, r.sleeps + 1⟩

/-- `HyP3._watch_job` (lines 126 to 138); Python defaults are
`timeout=10800`, `interval=60`. -/
def _watch_job (service : Nat → String → GetJobResponse) (job : Job)
    (timeout interval : Nat) : WatchRun Job :=
  watch_job_loop service job 0 (ceil_div timeout interval)

/-- The `for ii in range(iterations_until_timeout)` loop of
`HyP3._watch_batch` (lines 105 to 123), analogous to `watch_job_loop`; the
status counts computed each iteration feed only the progress bar. -/
def watch_batch_loop (service : Nat → String → GetJobResponse) (b : Batch)
    (i fuel : Nat) : WatchRun Batch :=
  match fuel with
  | 0 => ⟨Except.error (PyExc.timeoutBatch b), 0, 0⟩
  | fuel2 + 1 =>
    match _refresh_batch (service i) b with
    | .error e => ⟨Except.error e, 1, 0⟩
    | .ok b2 =>
      if b2.complete then ⟨Except.ok b2, 1, 0⟩
      else
        let r := watch_batch_loop service b2 (i + 1) fuel2
        ⟨r.outcome, r.refresh_calls + 1, r.sleeps + 1⟩

/-- `HyP3._watch_batch` (lines 105 to 123); Python defaults are
`timeout=10800`, `interval=60`. -/
def _watch_batch (service : Nat → String → GetJobResponse) (b : Batch)
    (timeout interval : Nat) : WatchRun Batch :=
  watch_batch_loop service b 0 (ceil_div timeout interval)

/-- `HyP3.watch` (lines 90 to 138): single dispatch on the runtime type; the
base implementation raises
`NotImplementedError(fCannot watch ... type object)` without touching the
remote service. -/
def watch (service : Nat → String → GetJobResponse) (d : Dispatchable)
    (timeout interval : Nat) : WatchRun Dispatchable :=
  match d with
  | .job j =>
    let r := _watch_job service j timeout interval
    ⟨Except.map Dispatchable.job r.outcome, r.refresh_calls, r.sleeps⟩
  | .batch b =>
    let r := _watch_batch service b timeout interval
    ⟨Except.map Dispatchable.batch r.outcome, r.refresh_calls, r.sleeps⟩
  | .other t =>
    ⟨Except.error (PyExc.notImplementedError ("Cannot watch " ++ t ++ " type object")),
      0, 0⟩

/-- The two pieces of a Python `datetime` that `HyP3.find_jobs` observes:
the output of `isoformat(timespec=seconds)` and whether `tzinfo` is set. -/
structure Datetime where
  iso : String
  has_tz : Bool
deriving DecidableEq

/-- The remote API as seen through `self.session.get(urljoin(self.url,
/jobs), params=params)` in `HyP3.find_jobs`: an HTTP 2xx response whose JSON
body has a `jobs` list, or an HTTP error status; `response.url` (interpolated
into the error message) is an attribute of the response, carried here by the
error constructor. -/
inductive SearchResponse where
  | success (records : List Record)
  | httpError (response_url : String)

/-- The `params` dictionary built by `HyP3.find_jobs` (lines 50 to 62):
`name`, then `start` and `end` in ISO form with a `Z` appended when the
datetime is timezone-naive, then `status_code`. -/
def find_jobs_params (start end_ : Option Datetime) (status name : Option String) :
    List (String × String) :=
  (match name with
   | some n => [("name", n)]
   | none => [])
  ++ (match start with
      | some d => [("start", d.iso ++ (if d.has_tz then "" else "Z"))]
      | none => [])
  ++ (match end_ with
      | some d => [("end", d.iso ++ (if d.has_tz then "" else "Z"))]
      | none => [])
  ++ (match status with
      | some s => [("status_code", s)]
      | none => [])

/-- The list comprehension `[Job.from_dict(job) for job in
response.json()[jobs]]` (line 69 and, equivalently, the record loop of
`submit_prepared_jobs`): parse each record in order, the first parse error
propagating. -/
def parse_jobs : List Record → Except PyExc (List Job)
  | [] => Except.ok []
  | r :: rest =>
    match Job.from_dict r with
    | .error e => Except.error e
    | .ok j =>
      match parse_jobs rest with
      | .error e => Except.error e
      | .ok js => Except.ok (j :: js)

/-- `HyP3.find_jobs` (lines 37 to 72): build the search params, query the
service; an `HTTPError` from `raise_for_status` is re-raised as
`HyP3Error(fError while trying to query ...)`; otherwise parse every returned
record into a `Job` (parse errors propagate), emit the warning
`Found zero jobs` (a `UserWarning`, the spec EmptyResultWarning) when the
parsed list is empty, and return the `Batch`.  The second component of the
result is the list of warnings emitted. -/
def find_jobs (service : List (String × String) → SearchResponse)
    (start end_ : Option Datetime) (status name : Option String) :
    Except PyExc (Batch × List String) :=
  match service (find_jobs_params start end_ status name) with
  | .httpError url =>
    Except.error (PyExc.hyp3Error ("Error while trying to query " ++ url))
  | .success recs =>
    match parse_jobs recs with
    | .error e => Except.error e
    | .ok jobs =>
      Except.ok (Batch.mk jobs, if jobs.isEmpty then ["Found zero jobs"] else [])

/-- The `job_parameters` sub-dictionary of a prepared job dictionary:
`granules` plus the remaining parameter entries. -/
structure JobParameters where
  granules : List String
  params : List (String × PyVal)
deriving DecidableEq

/-- A prepared job dictionary as produced by the `prepare_*_job` builders:
`job_parameters`, `job_type`, and a `name` key present exactly when a name
was supplied (modelled by `Option`). -/
structure JobDict where
  job_parameters : JobParameters
  job_type : String
  name : Option String
deriving DecidableEq

/-- The argument of `HyP3.submit_prepared_jobs`: a single prepared job
dictionary or a list of them. -/
inductive Prepared where
  | single (spec : JobDict)
  | many (specs : List JobDict)

/-- The `payload` computed by `HyP3.submit_prepared_jobs` (lines 172 to 175):
a single dictionary is wrapped in a one-element list. -/
def submit_payload (pj : Prepared) : List JobDict :=
  match pj with
  | .single d => [d]
  | .many ds => ds

/-- The remote API as seen through `self.session.post(urljoin(self.url,
/jobs), json=payload)` in `HyP3.submit_prepared_jobs`: an HTTP 2xx response
whose JSON body has a `jobs` list, or an HTTP error; `err_text` is `str(e)`
of the `HTTPError` raised by `raise_for_status`, the error detail available
through the exception. -/
inductive PostResponse where
  | success (records : List Record)
  | httpError (err_text : String)

/-- The accumulation loop of `HyP3.submit_prepared_jobs` (lines 183 to 185):
`batch += Job.from_dict(job)` for each returned record; `Batch` addition
appends, preserving response order (Batch combination modelled from the spec,
section 4.2 `combine`); a parse error aborts and propagates. -/
def batch_add_jobs (batch : Batch) : List Record → Except PyExc Batch
  | [] => Except.ok batch
  | r :: rest =>
    match Job.from_dict r with
    | .error e => Except.error e
    | .ok j => batch_add_jobs (Batch.mk (batch.jobs ++ [j])) rest

/-- `HyP3.submit_prepared_jobs` (lines 163 to 186): wrap the specs into the
payload, POST them; an `HTTPError` is re-raised as `HyP3Error(str(e))`;
otherwise fold the returned records into a `Batch` in response order. -/
def submit_prepared_jobs (service : List JobDict → PostResponse)
    (prepared_jobs : Prepared) : Except PyExc Batch :=
  match service (submit_payload prepared_jobs) with
  | .httpError msg => Except.error (PyExc.hyp3Error msg)
  | .success recs => batch_add_jobs (Batch.mk []) recs

/-- `HyP3.prepare_autorift_job` (lines 202 to 220). -/
def prepare_autorift_job (granule1 granule2 : String) (name : Option String) :
    JobDict :=
  { job_parameters := { granules := [granule1, granule2], params := [] }
    job_type := "AUTORIFT"
    name := name }

/-- Python dictionary insertion: updating an existing key in place, otherwise
appending the new key at the end. -/
def dict_insert {α : Type} (d : List (String × α)) (k : String) (v : α) :
    List (String × α) :=
  if d.any (fun p => p.1 == k) then
    d.map (fun p => if p.1 == k then (k, v) else p)
  else d ++ [(k, v)]

/-- The `**kwargs` merge in a Python dict literal: insert every kwargs entry
into the literal dictionary in order. -/
def dict_merge {α : Type} (d kwargs : List (String × α)) : List (String × α) :=
  kwargs.foldl (fun acc p => dict_insert acc p.1 p.2) d

/-- An `Optional[bool]` argument as the Python value stored in the
parameters dictionary. -/
def of_opt_bool (b : Option Bool) : PyVal :=
  match b with
  | some v => PyVal.bool v
  | none => PyVal.nonePy

/-- An optional string-literal argument as the Python value stored in the
parameters dictionary. -/
def of_opt_str (s : Option String) : PyVal :=
  match s with
  | some v => PyVal.str v
  | none => PyVal.nonePy

/-- An optional integer-literal argument as the Python value stored in the
parameters dictionary. -/
def of_opt_int (n : Option Int) : PyVal :=
  match n with
  | some v => PyVal.int v
  | none => PyVal.nonePy

/-- The pruning loop `for k, v in job_parameters: if v is None: del
job_parameters[k]` of `prepare_rtc_job` (lines 307 to 309) and
`prepare_insar_job` (lines 372 to 374).  Iterating a Python dict yields its
keys, so each key string is tuple-unpacked into `(k, v)`: this raises
`ValueError` unless the key has exactly two characters; when it does, `v` is
bound to the second character, `v is None` is then always false, and nothing
is ever deleted, so on the non-raising path the dictionary is unchanged. -/
def prune_none_loop : List (String × PyVal) → Except PyExc (List (String × PyVal))
  | [] => Except.ok []
  | (k, v) :: rest =>
    if k.length = 2 then
      match prune_none_loop rest with
      | .error e => Except.error e
      | .ok rest2 => Except.ok ((k, v) :: rest2)
    else if k.length < 2 then
      Except.error (PyExc.valueError
        ("not enough values to unpack (expected 2, got " ++ toString k.length ++ ")"))
    else
      Except.error (PyExc.valueError ("too many values to unpack (expected 2)"))

/-- `HyP3.prepare_rtc_job` (lines 265 to 316): build the parameters
dictionary (note the source misspells two keys), run the `None`-pruning loop
over it, then assemble the job dictionary. -/
def prepare_rtc_job (granule : String) (name : Option String)
    (dem_matching include_dem include_inc_map include_scattering_area : Option Bool)
    (radiometry : Option String) (resolution : Option Int) (scale : Option String)
    (speckle_filter : Option Bool) (kwargs : List (String × PyVal)) :
    Except PyExc JobDict :=
  let job_parameters := dict_merge
    [("dem_matching", of_opt_bool dem_matching),
     ("include_dem", of_opt_bool include_dem),
     ("include-inc_map", of_opt_bool include_inc_map),
     ("include_scatteering_area", of_opt_bool include_scattering_area),
     ("radiometry", of_opt_str radiometry),
     ("resolution", of_opt_int resolution),
     ("scale", of_opt_str scale),
     ("speckle_filter", of_opt_bool speckle_filter)] kwargs
  match prune_none_loop job_parameters with
  | .error e => Except.error e
  | .ok pruned =>
    Except.ok
      { job_parameters := { granules := [granule], params := pruned }
        job_type := "RTC_GAMMA"
        name := name }

/-- `HyP3.prepare_insar_job` (lines 343 to 381): build the parameters
dictionary, run the `None`-pruning loop over it, then assemble the job
dictionary. -/
def prepare_insar_job (granule1 granule2 : String) (name : Option String)
    (include_look_vectors include_los_displacement : Option Bool)
    (looks : Option String) (kwargs : List (String × PyVal)) :
    Except PyExc JobDict :=
  let job_parameters := dict_merge
    [("include_look_vectors", of_opt_bool include_look_vectors),
     ("include_los_displacement", of_opt_bool include_los_displacement),
     ("looks", of_opt_str looks)] kwargs
  match prune_none_loop job_parameters with
  | .error e => Except.error e
  | .ok pruned =>
    Except.ok
      { job_parameters := { granules := [granule1, granule2], params := pruned }
        job_type := "INSAR_GAMMA"
        name := name }

/-- The job dictionary computed inside `HyP3.submit_insar_job` (line 340):
`self.prepare_insar_job(granule1, granule2, name=name, **kwargs)` — the
typed arguments `include_look_vectors`, `include_los_displacement` and
`looks` are accepted by `submit_insar_job` but not forwarded, so
`prepare_insar_job` receives its `None` defaults for them. -/
def submit_insar_job_dict (granule1 granule2 : String) (name : Option String)
    (include_look_vectors include_los_displacement : Option Bool)
    (looks : Option String) (kwargs : List (String × PyVal)) :
    Except PyExc JobDict :=
  prepare_insar_job granule1 granule2 name none none none kwargs

/-- `HYP3_PROD` (line 17). -/
def HYP3_PROD : String := "https://hyp3-api.asf.alaska.edu"

/-- `AUTH_URL` of src/hyp3_sdk/util.py. -/
def AUTH_URL : String :=
  "https://urs.earthdata.nasa.gov/oauth/authorize?response_type=code&client_id=BO_n7nTIlMljdvU6kRRB3g&redirect_uri=https://auth.asf.alaska.edu/login"

/-- A `requests.Session` as the embedded code observes it: the URLs it has
fetched with `get` and its headers dictionary. -/
structure Session where
  gets : List String
  headers : List (String × String)
deriving DecidableEq

/-- The number of parameters `util.get_authenticated_session` declares:
`def get_authenticated_session():` takes none. -/
def get_authenticated_session_arity : Nat := 0

/-- Calling `util.get_authenticated_session` with a list of positional
arguments.  Python raises `TypeError` when the argument count does not match
the declared (zero) parameters; otherwise the function creates a session,
GETs `AUTH_URL`, and returns the session. -/
def call_get_authenticated_session (args : List PyVal) : Except PyExc Session :=
  if args.length = get_authenticated_session_arity then
    Except.ok { gets := [AUTH_URL], headers := [] }
  else
    Except.error (PyExc.typeError
      ("get_authenticated_session() takes "
        ++ toString get_authenticated_session_arity
        ++ " positional arguments but " ++ toString args.length ++ " were given"))

/-- The state a constructed `HyP3` client would hold: `self.url` and
`self.session`. -/
structure HyP3State where
  url : String
  session : Session
deriving DecidableEq

/-- `HyP3.__init__` (lines 24 to 35): store the API url, call
`get_authenticated_session(username, password)` with two positional
arguments, then update the session headers with the `User-Agent`
(`version` stands for `hyp3_sdk.__version__`, which is defined outside these
sources; the header update is unreachable when the call raises). -/
def hyp3_init (api_url : String) (username password : PyVal) (version : String) :
    Except PyExc HyP3State :=
  match call_get_authenticated_session [username, password] with
  | .error e => Except.error e
  | .ok s =>
    Except.ok
      { url := api_url
        session := { gets := s.gets
                     headers := dict_insert s.headers "User-Agent" ("hyp3_sdk/" ++ version) } }

/-- A raw record for a RUNNING job with id `j1`. -/
def rec_running : Record :=
  [("job_id", PyVal.str ("j1")), ("status_code", PyVal.str ("RUNNING"))]

/-- A raw record for a SUCCEEDED job with id `j1`. -/
def rec_succeeded : Record :=
  [("job_id", PyVal.str ("j1")), ("status_code", PyVal.str ("SUCCEEDED"))]

/-- The job `rec_running` parses to. -/
def job_running : Job :=
  { job_id := "j1", status := JobStatus.RUNNING, name := none, request_time := none
    job_type := none, job_parameters := none, files := none, logs := none }

/-- The job `rec_succeeded` parses to. -/
def job_succeeded : Job :=
  { job_id := "j1", status := JobStatus.SUCCEEDED, name := none, request_time := none
    job_type := none, job_parameters := none, files := none, logs := none }

/-- A remote whose first refresh reports RUNNING and whose later refreshes
report SUCCEEDED. -/
def scenario_service (i : Nat) (_ : String) : GetJobResponse :=
  if i = 0 then GetJobResponse.success rec_running
  else GetJobResponse.success rec_succeeded

/-- A remote that reports RUNNING forever. -/
def stall_service (_ : Nat) (_ : String) : GetJobResponse :=
  GetJobResponse.success rec_running

/-- A two-job batch of RUNNING jobs. -/
def batch_two : Batch := Batch.mk [job_running, job_running]

/-- A pending job with id `a`. -/
def job_a : Job :=
  { job_id := "a", status := JobStatus.PENDING, name := none, request_time := none
    job_type := none, job_parameters := none, files := none, logs := none }

/-- A pending job with id `b`. -/
def job_b : Job :=
  { job_id := "b", status := JobStatus.PENDING, name := none, request_time := none
    job_type := none, job_parameters := none, files := none, logs := none }

/-- The batch holding `job_a` then `job_b`. -/
def batch_ab : Batch := Batch.mk [job_a, job_b]

/-- A remote that knows job `a` and reports HTTP 404 for every other id. -/
def partial_remote (id : String) : GetJobResponse :=
  if id = "a" then GetJobResponse.success rec_running
  else GetJobResponse.httpError 404

/-- A remote that reports HTTP 404 (not found) for every id. -/
def svc_not_found (_ : String) : GetJobResponse :=
  GetJobResponse.httpError 404

/-- A remote whose requests fail with a `RequestException` for every id. -/
def svc_request_exc (_ : String) : GetJobResponse :=
  GetJobResponse.requestException

/-- A submission endpoint that accepts any payload and returns one record. -/
def post_ok_remote (_ : List JobDict) : PostResponse :=
  PostResponse.success [rec_running]

/-- A search endpoint that succeeds with zero job records. -/
def empty_search_remote (_ : List (String × String)) : SearchResponse :=
  SearchResponse.success []

/-- A prepared autoRIFT job dictionary used as a concrete submission input. -/
def autorift_example : JobDict := prepare_autorift_job ("g1") ("g2") none

/-! ## Theorems -/

/-- The job watch loop makes at most `fuel` refresh calls. -/
theorem watch_job_loop_refresh_le (service : Nat → String → GetJobResponse) :
    ∀ (fuel i : Nat) (job : Job),
      (watch_job_loop service job i fuel).refresh_calls ≤ fuel := by
  intro fuel
  induction fuel with
  | zero => intro i job; exact Nat.le_refl 0
  | succ n ih =>
    intro i job
    simp only [watch_job_loop]
    cases h : _refresh_job (service i) job with
    | error e => exact Nat.le_add_left 1 n
    | ok job2 =>
      by_cases hc : job2.complete
      · simp only [hc, if_true]
        exact Nat.le_add_left 1 n
      · simp only [hc, if_false]
        exact Nat.succ_le_succ (ih (i + 1) job2)

/-- When the job watch loop returns normally, the returned snapshot is
complete and the loop slept exactly once less than it refreshed. -/
theorem watch_job_loop_ok (service : Nat → String → GetJobResponse) :
    ∀ (fuel i : Nat) (job j : Job),
      (watch_job_loop service job i fuel).outcome = Except.ok j →
      j.complete = true
      ∧ (watch_job_loop service job i fuel).sleeps + 1
          = (watch_job_loop service job i fuel).refresh_calls := by
  intro fuel
  induction fuel with
  | zero => intro i job j h; exact absurd h (by simp [watch_job_loop])
  | succ n ih =>
    intro i job j h
    simp only [watch_job_loop] at h ⊢
    cases hr : _refresh_job (service i) job with
    | error e => rw [hr] at h; exact absurd h (by simp)
    | ok job2 =>
      rw [hr] at h
      dsimp only at h ⊢
      by_cases hc : job2.complete
      · rw [if_pos hc] at h ⊢
        injection h with h2
        exact ⟨h2 ▸ hc, rfl⟩
      · rw [if_neg hc] at h ⊢
        dsimp only at h ⊢
        obtain ⟨h1, h2⟩ := ih (i + 1) job2 j h
        exact ⟨h1, by omega⟩

/-- The batch watch loop makes at most `fuel` refresh calls. -/
theorem watch_batch_loop_refresh_le (service : Nat → String → GetJobResponse) :
    ∀ (fuel i : Nat) (b : Batch),
      (watch_batch_loop service b i fuel).refresh_calls ≤ fuel := by
  intro fuel
  induction fuel with
  | zero => intro i b; exact Nat.le_refl 0
  | succ n ih =>
    intro i b
    simp only [watch_batch_loop]
    cases h : _refresh_batch (service i) b with
    | error e => exact Nat.le_add_left 1 n
    | ok b2 =>
      by_cases hc : b2.complete
      · simp only [hc, if_true]
        exact Nat.le_add_left 1 n
      · simp only [hc, if_false]
        exact Nat.succ_le_succ (ih (i + 1) b2)

/-- When the batch watch loop returns normally, the returned snapshot is
complete and the loop slept exactly once less than it refreshed. -/
theorem watch_batch_loop_ok (service : Nat → String → GetJobResponse) :
    ∀ (fuel i : Nat) (b b2 : Batch),
      (watch_batch_loop service b i fuel).outcome = Except.ok b2 →
      b2.complete = true
      ∧ (watch_batch_loop service b i fuel).sleeps + 1
          = (watch_batch_loop service b i fuel).refresh_calls := by
  intro fuel
  induction fuel with
  | zero => intro i b b2 h; exact absurd h (by simp [watch_batch_loop])
  | succ n ih =>
    intro i b b2 h
    simp only [watch_batch_loop] at h ⊢
    cases hr : _refresh_batch (service i) b with
    | error e => rw [hr] at h; exact absurd h (by simp)
    | ok b3 =>
      rw [hr] at h
      dsimp only at h ⊢
      by_cases hc : b3.complete
      · rw [if_pos hc] at h ⊢
        injection h with h2
        exact ⟨h2 ▸ hc, rfl⟩
      · rw [if_neg hc] at h ⊢
        dsimp only at h ⊢
        obtain ⟨h1, h2⟩ := ih (i + 1) b3 b2 h
        exact ⟨h1, by omega⟩

/-- C1: every watch call on a Job or a Batch with a positive interval makes
at most `ceil(timeout / interval)` refresh calls; whenever it returns
normally, the returned value is the complete refreshed snapshot and the loop
did not sleep after the final refresh (one fewer sleep than refreshes, so a
completed target returns immediately instead of waiting out the remaining
iterations); and in the concrete scenario of a single job watched with
`timeout=120`, `interval=60` whose refreshes yield RUNNING then SUCCEEDED,
the call makes exactly two refresh calls, sleeps once, and returns the
SUCCEEDED snapshot. -/
theorem watch_refreshes_bounded_and_returns_refreshed_snapshot
    (service : Nat → String → GetJobResponse) (job : Job) (batch : Batch)
    (timeout interval : Nat) (hpos : 0 < interval) :
    ((_watch_job service job timeout interval).refresh_calls
        ≤ ceil_div timeout interval
      ∧ ∀ j, (_watch_job service job timeout interval).outcome = Except.ok j →
          j.complete = true
          ∧ (_watch_job service job timeout interval).sleeps + 1
              = (_watch_job service job timeout interval).refresh_calls)
    ∧ ((_watch_batch service batch timeout interval).refresh_calls
        ≤ ceil_div timeout interval
      ∧ ∀ b2, (_watch_batch service batch timeout interval).outcome = Except.ok b2 →
          b2.complete = true
          ∧ (_watch_batch service batch timeout interval).sleeps + 1
              = (_watch_batch service batch timeout interval).refresh_calls)
    ∧ _watch_job scenario_service job_running 120 60
        = ⟨Except.ok job_succeeded, 2, 1⟩ := by
  refine ⟨⟨?_, ?_⟩, ⟨?_, ?_⟩, rfl⟩
  · exact watch_job_loop_refresh_le service (ceil_div timeout interval) 0 job
  · intro j h
    exact watch_job_loop_ok service (ceil_div timeout interval) 0 job j h
  · exact watch_batch_loop_refresh_le service (ceil_div timeout interval) 0 batch
  · intro b2 h
    exact watch_batch_loop_ok service (ceil_div timeout interval) 0 batch b2 h

/-- Witness for C1: the theorem applied to the concrete RUNNING-then-SUCCEEDED
remote, with the hypothesis `0 < 60` discharged there. -/
theorem watch_refreshes_bounded_witness :
    0 < 60
    ∧ (_watch_job scenario_service job_running 120 60).refresh_calls
        ≤ ceil_div 120 60
    ∧ _watch_job scenario_service job_running 120 60
        = ⟨Except.ok job_succeeded, 2, 1⟩ :=
  ⟨by decide,
    (watch_refreshes_bounded_and_returns_refreshed_snapshot scenario_service
      job_running (Batch.mk []) 120 60 (by decide)).1.1,
    (watch_refreshes_bounded_and_returns_refreshed_snapshot scenario_service
      job_running (Batch.mk []) 120 60 (by decide)).2.2⟩

/-- Under a remote that always responds with a record parsing to an
incomplete job, every single-job refresh succeeds with an incomplete
snapshot. -/
theorem refresh_job_incomplete (service1 : String → GetJobResponse)
    (H : ∀ id, ∃ rec j, service1 id = GetJobResponse.success rec
        ∧ Job.from_dict rec = Except.ok j ∧ j.complete = false) :
    ∀ job, ∃ j2, _refresh_job service1 job = Except.ok j2 ∧ j2.complete = false := by
  intro job
  obtain ⟨rec, j, hsvc, hparse, hcomp⟩ := H job.job_id
  refine ⟨j, ?_, hcomp⟩
  simp [_refresh_job, get_job_by_id, hsvc, hparse]

/-- Under a remote that always reports incomplete jobs, refreshing a job list
succeeds, preserves length, and yields only incomplete jobs. -/
theorem refresh_jobs_list_incomplete (service1 : String → GetJobResponse)
    (H : ∀ id, ∃ rec j, service1 id = GetJobResponse.success rec
        ∧ Job.from_dict rec = Except.ok j ∧ j.complete = false) :
    ∀ js : List Job, ∃ js2, refresh_jobs_list service1 js = Except.ok js2
      ∧ js2.length = js.length ∧ ∀ j ∈ js2, j.complete = false := by
  intro js
  induction js with
  | nil => exact ⟨[], rfl, rfl, by simp⟩
  | cons j rest ih =>
    obtain ⟨j2, hj2, hcomp⟩ := refresh_job_incomplete service1 H j
    obtain ⟨rest2, hrest, hlen, hall⟩ := ih
    refine ⟨j2 :: rest2, ?_, by simp [hlen], ?_⟩
    · simp [refresh_jobs_list, hj2, hrest]
    · intro x hx
      rcases List.mem_cons.mp hx with h1 | h2
      · exact h1 ▸ hcomp
      · exact hall x h2

/-- Under a remote that always reports incomplete jobs, refreshing a batch
succeeds, preserves the job count, and a nonempty batch refreshes to an
incomplete batch. -/
theorem refresh_batch_incomplete (service1 : String → GetJobResponse)
    (H : ∀ id, ∃ rec j, service1 id = GetJobResponse.success rec
        ∧ Job.from_dict rec = Except.ok j ∧ j.complete = false) :
    ∀ b : Batch, ∃ b2, _refresh_batch service1 b = Except.ok b2
      ∧ b2.jobs.length = b.jobs.length ∧ (b.jobs ≠ [] → b2.complete = false) := by
  intro b
  obtain ⟨js2, hjs, hlen, hall⟩ := refresh_jobs_list_incomplete service1 H b.jobs
  refine ⟨Batch.mk js2, by simp [_refresh_batch, hjs], hlen, ?_⟩
  intro hne
  cases hj : js2 with
  | nil =>
    rw [hj] at hlen
    exact absurd (List.length_eq_zero.mp hlen.symm) hne
  | cons j0 r2 =>
    have hj0 : j0.complete = false := hall j0 (by rw [hj]; exact List.mem_cons_self j0 r2)
    simp [Batch.complete, hj, List.all_cons, hj0]

/-- Under refreshes that always succeed with incomplete snapshots, the job
watch loop consumes all its fuel, sleeps after every iteration, and raises
the timeout error carrying the snapshot produced by the final refresh (or
the unrefreshed input when there is no iteration at all). -/
theorem watch_job_loop_timeout (service : Nat → String → GetJobResponse)
    (H : ∀ k job0, ∃ j2, _refresh_job (service k) job0 = Except.ok j2
        ∧ j2.complete = false) :
    ∀ (fuel i : Nat) (job : Job),
      ∃ last, watch_job_loop service job i fuel
          = ⟨Except.error (PyExc.timeoutJob last), fuel, fuel⟩
        ∧ (fuel = 0 → last = job)
        ∧ ∀ m, fuel = m + 1 → last.complete = false
            ∧ ∃ prev, _refresh_job (service (i + m)) prev = Except.ok last := by
  intro fuel
  induction fuel with
  | zero =>
    intro i job
    exact ⟨job, rfl, fun _ => rfl, fun m hm => absurd hm (by omega)⟩
  | succ n ih =>
    intro i job
    obtain ⟨j2, hr, hc⟩ := H i job
    obtain ⟨last, hrun, hbase, hstep⟩ := ih (i + 1) j2
    refine ⟨last, ?_, fun h0 => absurd h0 (by omega), ?_⟩
    · simp only [watch_job_loop]
      rw [hr]
      dsimp only
      rw [if_neg (by simp [hc]), hrun]
    · intro m hm
      cases n with
      | zero =>
        have hl : last = j2 := hbase rfl
        subst hl
        have hm0 : m = 0 := by omega
        subst hm0
        exact ⟨hc, job, by simpa using hr⟩
      | succ n2 =>
        have hm2 : m = n2 + 1 := by omega
        subst hm2
        obtain ⟨hc2, prev, hprev⟩ := hstep n2 rfl
        have hidx : (i + 1) + n2 = i + (n2 + 1) := by omega
        rw [hidx] at hprev
        exact ⟨hc2, prev, hprev⟩

/-- Under a remote that always reports incomplete jobs, the batch watch loop
on a nonempty batch consumes all its fuel, sleeps after every iteration, and
raises the timeout error carrying the snapshot produced by the final
refresh. -/
theorem watch_batch_loop_timeout (service : Nat → String → GetJobResponse)
    (H : ∀ k id, ∃ rec j, service k id = GetJobResponse.success rec
        ∧ Job.from_dict rec = Except.ok j ∧ j.complete = false) :
    ∀ (fuel i : Nat) (b : Batch), b.jobs ≠ [] →
      ∃ last, watch_batch_loop service b i fuel
          = ⟨Except.error (PyExc.timeoutBatch last), fuel, fuel⟩
        ∧ (fuel = 0 → last = b)
        ∧ ∀ m, fuel = m + 1 → last.complete = false
            ∧ ∃ prev, _refresh_batch (service (i + m)) prev = Except.ok last := by
  intro fuel
  induction fuel with
  | zero =>
    intro i b hne
    exact ⟨b, rfl, fun _ => rfl, fun m hm => absurd hm (by omega)⟩
  | succ n ih =>
    intro i b hne
    obtain ⟨b2, hr, hlen, hcomp⟩ := refresh_batch_incomplete (service i) (H i) b
    have hcompF : b2.complete = false := hcomp hne
    have hne2 : b2.jobs ≠ [] := by
      intro h0
      apply hne
      rw [h0] at hlen
      exact List.length_eq_zero.mp hlen.symm
    obtain ⟨last, hrun, hbase, hstep⟩ := ih (i + 1) b2 hne2
    refine ⟨last, ?_, fun h0 => absurd h0 (by omega), ?_⟩
    · simp only [watch_batch_loop]
      rw [hr]
      dsimp only
      rw [if_neg (by simp [hcompF]), hrun]
    · intro m hm
      cases n with
      | zero =>
        have hl : last = b2 := hbase rfl
        subst hl
        have hm0 : m = 0 := by omega
        subst hm0
        exact ⟨hcompF, b, by simpa using hr⟩
      | succ n2 =>
        have hm2 : m = n2 + 1 := by omega
        subst hm2
        obtain ⟨hc2, prev, hprev⟩ := hstep n2 rfl
        have hidx : (i + 1) + n2 = i + (n2 + 1) := by omega
        rw [hidx] at hprev
        exact ⟨hc2, prev, hprev⟩

/-- C2: when the remote keeps reporting incomplete snapshots (so the target
is still not complete after all `ceil(timeout / interval)` iterations), a
watch call on a Job, or on a nonempty Batch, exhausts all its iterations and
fails with the timeout error (the `HyP3Error` raised at the timeout raise
site) carrying the last-known snapshot: the snapshot produced by the final
refresh, which is itself incomplete, so the caller can inspect partial
progress. -/
theorem watch_timeout_raises_with_last_snapshot
    (serviceJ serviceB : Nat → String → GetJobResponse) (job : Job) (batch : Batch)
    (timeout interval : Nat) (hpos : 0 < interval)
    (hJ : ∀ k id, ∃ rec j, serviceJ k id = GetJobResponse.success rec
        ∧ Job.from_dict rec = Except.ok j ∧ j.complete = false)
    (hB : ∀ k id, ∃ rec j, serviceB k id = GetJobResponse.success rec
        ∧ Job.from_dict rec = Except.ok j ∧ j.complete = false)
    (hne : batch.jobs ≠ []) :
    (∃ last, _watch_job serviceJ job timeout interval
        = ⟨Except.error (PyExc.timeoutJob last), ceil_div timeout interval,
            ceil_div timeout interval⟩
      ∧ ∀ m, ceil_div timeout interval = m + 1 → last.complete = false
          ∧ ∃ prev, _refresh_job (serviceJ m) prev = Except.ok last)
    ∧ (∃ lastb, _watch_batch serviceB batch timeout interval
        = ⟨Except.error (PyExc.timeoutBatch lastb), ceil_div timeout interval,
            ceil_div timeout interval⟩
      ∧ ∀ m, ceil_div timeout interval = m + 1 → lastb.complete = false
          ∧ ∃ prevb, _refresh_batch (serviceB m) prevb = Except.ok lastb) := by
  constructor
  · have HJ2 : ∀ k job0, ∃ j2, _refresh_job (serviceJ k) job0 = Except.ok j2
        ∧ j2.complete = false :=
      fun k job0 => refresh_job_incomplete (serviceJ k) (hJ k) job0
    obtain ⟨last, hrun, hbase, hstep⟩ :=
      watch_job_loop_timeout serviceJ HJ2 (ceil_div timeout interval) 0 job
    refine ⟨last, hrun, fun m hm => ?_⟩
    obtain ⟨h1, prev, hprev⟩ := hstep m hm
    rw [Nat.zero_add] at hprev
    exact ⟨h1, prev, hprev⟩
  · obtain ⟨last, hrun, hbase, hstep⟩ :=
      watch_batch_loop_timeout serviceB hB (ceil_div timeout interval) 0 batch hne
    refine ⟨last, hrun, fun m hm => ?_⟩
    obtain ⟨h1, prev, hprev⟩ := hstep m hm
    rw [Nat.zero_add] at hprev
    exact ⟨h1, prev, hprev⟩

/-- Witness for C2: the theorem applied to a remote that reports RUNNING
forever, a single RUNNING job, and the spec scenario of a two-job RUNNING
batch watched with `timeout=60`, `interval=60`; all hypotheses are
discharged at these concrete inputs. -/
theorem watch_timeout_raises_witness :
    0 < 60 ∧ batch_two.jobs ≠ []
    ∧ ((∃ last, _watch_job stall_service job_running 60 60
        = ⟨Except.error (PyExc.timeoutJob last), ceil_div 60 60, ceil_div 60 60⟩
      ∧ ∀ m, ceil_div 60 60 = m + 1 → last.complete = false
          ∧ ∃ prev, _refresh_job (stall_service m) prev = Except.ok last)
    ∧ (∃ lastb, _watch_batch stall_service batch_two 60 60
        = ⟨Except.error (PyExc.timeoutBatch lastb), ceil_div 60 60, ceil_div 60 60⟩
      ∧ ∀ m, ceil_div 60 60 = m + 1 → lastb.complete = false
          ∧ ∃ prevb, _refresh_batch (stall_service m) prevb = Except.ok lastb)) :=
  ⟨by decide, by decide,
    watch_timeout_raises_with_last_snapshot stall_service stall_service job_running
      batch_two 60 60 (by decide)
      (fun _ _ => ⟨rec_running, job_running, rfl, rfl, rfl⟩)
      (fun _ _ => ⟨rec_running, job_running, rfl, rfl, rfl⟩)
      (by decide)⟩

/-- When the batch refresh loop succeeds, it preserves length and its i-th
output is the refresh of the i-th input. -/
theorem refresh_jobs_list_ok_pointwise (service : String → GetJobResponse) :
    ∀ (js js2 : List Job), refresh_jobs_list service js = Except.ok js2 →
      js2.length = js.length
      ∧ ∀ (i : Nat) (h1 : i < js.length) (h2 : i < js2.length),
          _refresh_job service (js.get ⟨i, h1⟩) = Except.ok (js2.get ⟨i, h2⟩) := by
  intro js
  induction js with
  | nil =>
    intro js2 h
    simp only [refresh_jobs_list] at h
    injection h with h2
    subst h2
    exact ⟨rfl, fun i h1 _ => absurd h1 (by simp)⟩
  | cons j rest ih =>
    intro js2 h
    simp only [refresh_jobs_list] at h
    cases hr : _refresh_job service j with
    | error e => rw [hr] at h; exact absurd h (by simp)
    | ok j2 =>
      rw [hr] at h
      dsimp only at h
      cases hrest : refresh_jobs_list service rest with
      | error e => rw [hrest] at h; exact absurd h (by simp)
      | ok rest2 =>
        rw [hrest] at h
        dsimp only at h
        injection h with h2
        subst h2
        obtain ⟨hlen, hpt⟩ := ih rest2 hrest
        refine ⟨by simp [hlen], ?_⟩
        intro i h1 h2
        cases i with
        | zero => exact hr
        | succ i2 =>
          have h1b : i2 < rest.length := by simpa using h1
          have h2b : i2 < rest2.length := by simpa using h2
          exact hpt i2 h1b h2b

/-- When the refresh of the i-th job fails, and every earlier job refreshes
successfully, the batch refresh loop fails with that same error. -/
theorem refresh_jobs_list_error (service : String → GetJobResponse) :
    ∀ (js : List Job) (i : Nat) (h : i < js.length) (e : PyExc),
      (∀ (k : Nat) (hk : k < js.length), k < i →
          ∃ jk, _refresh_job service (js.get ⟨k, hk⟩) = Except.ok jk) →
      _refresh_job service (js.get ⟨i, h⟩) = Except.error e →
      refresh_jobs_list service js = Except.error e := by
  intro js
  induction js with
  | nil => intro i h; exact absurd h (by simp)
  | cons j rest ih =>
    intro i h e hok herr
    cases i with
    | zero =>
      have herr2 : _refresh_job service j = Except.error e := herr
      simp only [refresh_jobs_list]
      rw [herr2]
    | succ i2 =>
      obtain ⟨j2, hj2⟩ := hok 0 (by simp) (by omega)
      have hj2b : _refresh_job service j = Except.ok j2 := hj2
      have hi2 : i2 < rest.length := by simpa using h
      have hrec : refresh_jobs_list service rest = Except.error e := by
        apply ih i2 hi2 e
        · intro k hk hklt
          obtain ⟨jk, hjk⟩ := hok (k + 1) (by simpa using Nat.succ_lt_succ hk) (by omega)
          exact ⟨jk, hjk⟩
        · exact herr
      simp only [refresh_jobs_list]
      rw [hj2b]
      dsimp only
      rw [hrec]

/-- C4: refreshing a Batch refreshes every contained job independently by its
identifier and re-wraps the results in order: on success the new batch has
one job per original job and its i-th job is the result of
`get_job_by_id` on the i-th original identifier; and if the refresh of a
contained job fails (the ones before it succeeding), the whole batch refresh
fails with that same error. -/
theorem refresh_batch_pointwise_and_fail
    (service : String → GetJobResponse) (b : Batch) :
    (∀ b2, _refresh_batch service b = Except.ok b2 →
        b2.jobs.length = b.jobs.length
        ∧ ∀ (i : Nat) (h1 : i < b.jobs.length) (h2 : i < b2.jobs.length),
            get_job_by_id service ((b.jobs.get ⟨i, h1⟩).job_id)
              = Except.ok (b2.jobs.get ⟨i, h2⟩))
    ∧ ∀ (i : Nat) (h : i < b.jobs.length) (e : PyExc),
        (∀ (k : Nat) (hk : k < b.jobs.length), k < i →
            ∃ jk, _refresh_job service (b.jobs.get ⟨k, hk⟩) = Except.ok jk) →
        _refresh_job service (b.jobs.get ⟨i, h⟩) = Except.error e →
        _refresh_batch service b = Except.error e := by
  constructor
  · intro b2 hok
    have hlist : refresh_jobs_list service b.jobs = Except.ok b2.jobs := by
      simp only [_refresh_batch] at hok
      cases hl : refresh_jobs_list service b.jobs with
      | error e => rw [hl] at hok; exact absurd hok (by simp)
      | ok js =>
        rw [hl] at hok
        dsimp only at hok
        injection hok with h2
        rw [← h2]
    obtain ⟨hlen, hpt⟩ := refresh_jobs_list_ok_pointwise service b.jobs b2.jobs hlist
    exact ⟨hlen, fun i h1 h2 => hpt i h1 h2⟩
  · intro i h e hok herr
    have := refresh_jobs_list_error service b.jobs i h e hok herr
    simp [_refresh_batch, this]

/-- Witness for C4: the theorem applied to a remote that knows job `a` and
404s job `b`, on the batch `[job_a, job_b]`: the batch refresh fails with
the `HyP3Error` produced by refreshing `job_b`. -/
theorem refresh_batch_pointwise_witness :
    _refresh_job partial_remote (batch_ab.jobs.get ⟨1, by decide⟩)
      = Except.error (PyExc.hyp3Error ("Unable to get job by ID b"))
    ∧ _refresh_batch partial_remote batch_ab
      = Except.error (PyExc.hyp3Error ("Unable to get job by ID b")) :=
  ⟨rfl,
    (refresh_batch_pointwise_and_fail partial_remote batch_ab).2 1 (by decide)
      (PyExc.hyp3Error ("Unable to get job by ID b"))
      (fun k hk hklt => by
        have hk0 : k = 0 := by omega
        subst hk0
        exact ⟨job_running, rfl⟩)
      rfl⟩

/-- C5 counterexample: when the remote reports not-found (HTTP 404) for an
unknown id, `get_job_by_id` raises exactly the same generic
`HyP3Error(Unable to get job by ID ...)` it raises for a plain transport
failure, so no specific not-found error distinct from the generic service
error is raised. -/
theorem get_job_by_id_not_found_not_specific :
    get_job_by_id svc_not_found ("bad-id")
      = Except.error (PyExc.hyp3Error ("Unable to get job by ID bad-id"))
    ∧ get_job_by_id svc_request_exc ("bad-id")
      = get_job_by_id svc_not_found ("bad-id") :=
  ⟨rfl, rfl⟩

/-- C5 (amended): for every id whose fetch fails — an HTTP error status such
as 404 for an unknown id, or any other request exception — `get_job_by_id`
raises the one generic `HyP3Error` with message
`Unable to get job by ID (id)`; there is no specific not-found error. -/
theorem get_job_by_id_raises_generic_hyp3error (service : String → GetJobResponse)
    (job_id : String)
    (h : (∃ n, service job_id = GetJobResponse.httpError n)
        ∨ service job_id = GetJobResponse.requestException) :
    get_job_by_id service job_id
      = Except.error (PyExc.hyp3Error ("Unable to get job by ID " ++ job_id)) := by
  rcases h with ⟨n, hn⟩ | hx
  · simp [get_job_by_id, hn]
  · simp [get_job_by_id, hx]

/-- Witness for C5 (amended): the theorem applied to the remote that 404s
every id, at id `bad-id`. -/
theorem get_job_by_id_generic_witness :
    ((∃ n, svc_not_found ("bad-id") = GetJobResponse.httpError n)
        ∨ svc_not_found ("bad-id") = GetJobResponse.requestException)
    ∧ get_job_by_id svc_not_found ("bad-id")
        = Except.error (PyExc.hyp3Error ("Unable to get job by ID " ++ "bad-id")) :=
  ⟨Or.inl ⟨404, rfl⟩,
    get_job_by_id_raises_generic_hyp3error svc_not_found ("bad-id") (Or.inl ⟨404, rfl⟩)⟩

/-- The record-accumulation loop of `submit_prepared_jobs` appends the parsed
jobs of the records, in order, to the batch it starts from. -/
theorem batch_add_jobs_eq :
    ∀ (recs : List Record) (batch : Batch),
      batch_add_jobs batch recs
        = match parse_jobs recs with
          | .error e => Except.error e
          | .ok js => Except.ok (Batch.mk (batch.jobs ++ js)) := by
  intro recs
  induction recs with
  | nil =>
    intro batch
    cases batch
    simp [batch_add_jobs, parse_jobs]
  | cons r rest ih =>
    intro batch
    simp only [batch_add_jobs, parse_jobs]
    cases hp : Job.from_dict r with
    | error e => rfl
    | ok j =>
      dsimp only
      rw [ih (Batch.mk (batch.jobs ++ [j]))]
      dsimp only
      cases parse_jobs rest with
      | error e => rfl
      | ok js => simp

/-- C6: when the POST of the prepared job specs succeeds, every returned
record is parsed into a `Job` and the result is the `Batch` of those jobs in
response order; when the POST fails at the HTTP level,
`submit_prepared_jobs` raises `HyP3Error` carrying `str(e)` of the
`HTTPError` — the remote error detail available through the exception. -/
theorem submit_prepared_jobs_parses_response_in_order
    (service : List JobDict → PostResponse) (pj : Prepared) :
    (∀ recs jobs, service (submit_payload pj) = PostResponse.success recs →
        parse_jobs recs = Except.ok jobs →
        submit_prepared_jobs service pj = Except.ok (Batch.mk jobs))
    ∧ ∀ msg, service (submit_payload pj) = PostResponse.httpError msg →
        submit_prepared_jobs service pj = Except.error (PyExc.hyp3Error msg) := by
  constructor
  · intro recs jobs hsvc hparse
    simp only [submit_prepared_jobs]
    rw [hsvc]
    dsimp only
    rw [batch_add_jobs_eq recs (Batch.mk []), hparse]
    simp
  · intro msg hsvc
    simp only [submit_prepared_jobs]
    rw [hsvc]

/-- Witness for C6: the theorem applied to a submission endpoint returning
one RUNNING record, for a single prepared autoRIFT spec. -/
theorem submit_prepared_jobs_witness :
    post_ok_remote (submit_payload (Prepared.single autorift_example))
        = PostResponse.success [rec_running]
    ∧ parse_jobs [rec_running] = Except.ok [job_running]
    ∧ submit_prepared_jobs post_ok_remote (Prepared.single autorift_example)
        = Except.ok (Batch.mk [job_running]) :=
  ⟨rfl, rfl,
    (submit_prepared_jobs_parses_response_in_order post_ok_remote
        (Prepared.single autorift_example)).1 [rec_running] [job_running] rfl rfl⟩

/-- C7: when the search succeeds with zero job records, `find_jobs` returns
normally (no exception) with an empty `Batch`, and emits the
`Found zero jobs` warning (the spec EmptyResultWarning) — a non-fatal
signal. -/
theorem find_jobs_zero_results_warns_not_raises
    (service : List (String × String) → SearchResponse)
    (start end_ : Option Datetime) (status name : Option String)
    (h : service (find_jobs_params start end_ status name)
        = SearchResponse.success []) :
    find_jobs service start end_ status name
      = Except.ok (Batch.mk [], ["Found zero jobs"]) := by
  simp [find_jobs, h, parse_jobs]

/-- Witness for C7: the theorem applied to the search endpoint that returns
an empty list, with no filters. -/
theorem find_jobs_zero_results_witness :
    empty_search_remote (find_jobs_params none none none none)
        = SearchResponse.success []
    ∧ find_jobs empty_search_remote none none none none
        = Except.ok (Batch.mk [], ["Found zero jobs"]) :=
  ⟨rfl, find_jobs_zero_results_warns_not_raises empty_search_remote none none none none rfl⟩

/-- C8: for an argument that is neither a Job nor a Batch, both `watch` and
`refresh` fall through to the unregistered single-dispatch base
implementation and raise `NotImplementedError`, making zero refresh calls
and with a result independent of the remote service (no remote call is
attempted). -/
theorem watch_refresh_reject_non_dispatchable
    (serviceW : Nat → String → GetJobResponse) (serviceR : String → GetJobResponse)
    (t : String) (timeout interval : Nat) :
    watch serviceW (Dispatchable.other t) timeout interval
      = ⟨Except.error (PyExc.notImplementedError
          ("Cannot watch " ++ t ++ " type object")), 0, 0⟩
    ∧ refresh serviceR (Dispatchable.other t)
      = Except.error (PyExc.notImplementedError
          ("Cannot refresh " ++ t ++ " type object")) :=
  ⟨rfl, rfl⟩

/-- C9: `submit_insar_job` never forwards `include_look_vectors`,
`include_los_displacement` or `looks` to `prepare_insar_job`, so two calls
agreeing on everything else but differing arbitrarily in those three typed
arguments compute identical prepared job dictionaries (and hence identical
submitted requests). -/
theorem submit_insar_job_ignores_unforwarded_args
    (granule1 granule2 : String) (name : Option String)
    (ilv1 ilv2 ilos1 ilos2 : Option Bool) (looks1 looks2 : Option String)
    (kwargs : List (String × PyVal)) :
    submit_insar_job_dict granule1 granule2 name ilv1 ilos1 looks1 kwargs
      = submit_insar_job_dict granule1 granule2 name ilv2 ilos2 looks2 kwargs :=
  rfl

/-- Inserting into a nonempty Python dictionary never changes its first key. -/
theorem dict_insert_cons_head {α : Type} (p : String × α) (d : List (String × α))
    (k : String) (v : α) :
    ∃ q d2, dict_insert (p :: d) k v = q :: d2 ∧ q.1 = p.1 := by
  by_cases h : (p :: d).any (fun x => x.1 == k)
  · refine ⟨if p.1 == k then (k, v) else p,
      d.map (fun x => if x.1 == k then (k, v) else x), ?_, ?_⟩
    · simp only [dict_insert, if_pos h, List.map_cons]
    · by_cases hp : p.1 == k
      · simp only [if_pos hp]
        exact (eq_of_beq hp).symm
      · simp only [if_neg hp]
  · exact ⟨p, d ++ [(k, v)], by simp [dict_insert, h], rfl⟩

/-- Merging `**kwargs` into a nonempty Python dict literal never changes the
first key of the literal. -/
theorem dict_merge_cons_head {α : Type} :
    ∀ (kwargs : List (String × α)) (p : String × α) (d : List (String × α)),
      ∃ q d2, dict_merge (p :: d) kwargs = q :: d2 ∧ q.1 = p.1 := by
  intro kwargs
  induction kwargs with
  | nil => intro p d; exact ⟨p, d, rfl, rfl⟩
  | cons kv rest ih =>
    intro p d
    obtain ⟨q, d2, hins, hkey⟩ := dict_insert_cons_head p d kv.1 kv.2
    obtain ⟨q2, d3, hmerge, hkey2⟩ := ih q d2
    refine ⟨q2, d3, ?_, hkey2.trans hkey⟩
    show dict_merge (dict_insert (p :: d) kv.1 kv.2) rest = q2 :: d3
    rw [hins]
    exact hmerge

/-- The pruning loop raises ValueError at once when the first dictionary key
has more than two characters. -/
theorem prune_head_too_long (q : String × PyVal) (d2 : List (String × PyVal))
    (h : 2 < q.1.length) :
    prune_none_loop (q :: d2)
      = Except.error (PyExc.valueError ("too many values to unpack (expected 2)")) := by
  obtain ⟨k, v⟩ := q
  have h2 : 2 < k.length := h
  simp only [prune_none_loop]
  rw [if_neg (by omega), if_neg (by omega)]

/-- C3 (code bug): `prepare_rtc_job` and `prepare_insar_job` never return a
job-spec dictionary — for every argument assignment the pruning loop
`for k, v in job_parameters:` tuple-unpacks the first dictionary key
(`dem_matching`, resp. `include_look_vectors`, both longer than two
characters) and raises `ValueError: too many values to unpack (expected 2)`,
contradicting their own docstrings; `prepare_autorift_job` (which has no
pruning loop) does return the documented job-spec dictionary, with the
job-type tag, the two granules, and the name key present exactly when a name
is supplied. -/
theorem prepare_job_builders_code_bug
    (granule granule1 granule2 : String) (name1 name2 name3 : Option String)
    (dem_matching include_dem include_inc_map include_scattering_area : Option Bool)
    (radiometry : Option String) (resolution : Option Int) (scale : Option String)
    (speckle_filter : Option Bool)
    (include_look_vectors include_los_displacement : Option Bool)
    (looks : Option String)
    (kwargs1 kwargs2 : List (String × PyVal)) :
    prepare_rtc_job granule name1 dem_matching include_dem include_inc_map
        include_scattering_area radiometry resolution scale speckle_filter kwargs1
      = Except.error (PyExc.valueError ("too many values to unpack (expected 2)"))
    ∧ prepare_insar_job granule1 granule2 name2 include_look_vectors
        include_los_displacement looks kwargs2
      = Except.error (PyExc.valueError ("too many values to unpack (expected 2)"))
    ∧ prepare_autorift_job granule1 granule2 name3
      = { job_parameters := { granules := [granule1, granule2], params := [] }
          job_type := "AUTORIFT"
          name := name3 } := by
  refine ⟨?_, ?_, rfl⟩
  · obtain ⟨q, d2, hmerge, hkey⟩ := dict_merge_cons_head kwargs1
      ("dem_matching", of_opt_bool dem_matching)
      [("include_dem", of_opt_bool include_dem),
       ("include-inc_map", of_opt_bool include_inc_map),
       ("include_scatteering_area", of_opt_bool include_scattering_area),
       ("radiometry", of_opt_str radiometry),
       ("resolution", of_opt_int resolution),
       ("scale", of_opt_str scale),
       ("speckle_filter", of_opt_bool speckle_filter)]
    have hlen : 2 < q.1.length := by
      rw [hkey]
      show 2 < ("dem_matching" : String).length
      decide
    dsimp only [prepare_rtc_job]
    rw [hmerge, prune_head_too_long q d2 hlen]
  · obtain ⟨q, d2, hmerge, hkey⟩ := dict_merge_cons_head kwargs2
      ("include_look_vectors", of_opt_bool include_look_vectors)
      [("include_los_displacement", of_opt_bool include_los_displacement),
       ("looks", of_opt_str looks)]
    have hlen : 2 < q.1.length := by
      rw [hkey]
      show 2 < ("include_look_vectors" : String).length
      decide
    dsimp only [prepare_insar_job]
    rw [hmerge, prune_head_too_long q d2 hlen]

/-- C10 counterexample: at the production url with no credentials,
`HyP3.__init__` does not construct any session — the two-positional-argument
call of the zero-parameter `get_authenticated_session` raises `TypeError`. -/
theorem hyp3_init_ill_formed_call :
    hyp3_init HYP3_PROD PyVal.nonePy PyVal.nonePy ("0.0.0")
      = Except.error (PyExc.typeError
          ("get_authenticated_session() takes 0 positional arguments but 2 were given"))
    ∧ (hyp3_init HYP3_PROD PyVal.nonePy PyVal.nonePy ("0.0.0")).isOk = false :=
  ⟨rfl, rfl⟩

/-- C10 (amended): `HyP3.__init__` does call
`get_authenticated_session(username, password)`, but that call is ill-formed
against the zero-parameter definition in `util.py`: for every api_url,
username, password (and every version string), the constructor raises
`TypeError` and the supplied credentials never reach any constructed
session. -/
theorem hyp3_init_always_raises_type_error
    (api_url : String) (username password : PyVal) (version : String) :
    hyp3_init api_url username password version
      = Except.error (PyExc.typeError
          ("get_authenticated_session() takes 0 positional arguments but 2 were given")) := by
  simp [hyp3_init, call_get_authenticated_session, get_authenticated_session_arity]
  rfl

end Hyp3Sdk
